import Mathlib

/-!
Verification development for the Azure Landing Zone discovery-workshop engine.

The Python sources are shallowly embedded:
* Python `dict[str, V]` becomes an insertion-ordered association list
  `List (String × V)` with the operations `dget` (lookup), `dset`
  (insert-or-replace keeping the original position), `ddel` (delete) and
  `dmem` (key membership), matching CPython dictionary semantics for
  unique keys.
* Python floats (confidence values, percentages) become exact rationals `ℚ`.
* Exceptions become `Option`: a computation that raises (for example the
  unguarded `DISCOVERY_QUESTIONS[qid]` lookup raising `KeyError`) is a
  function returning `none` in the raising case.
* External collaborators (blob store, search index, language model) are
  parameters: document analysis takes the extraction outcome as input.
-/

/-- Lookup in a Python-style string-keyed dictionary (`d.get(k)` / `d[k]`). -/
def dget {α : Type} : List (String × α) → String → Option α
  | [], _ => none
  | p :: rest, k => if p.1 = k then some p.2 else dget rest k

/-- Key membership in a Python-style dictionary (`k in d`). -/
def dmem {α : Type} : List (String × α) → String → Bool
  | [], _ => false
  | p :: rest, k => if p.1 = k then true else dmem rest k

/-- Assignment `d[k] = v`: replace in place if the key exists, else append,
matching CPython insertion-order semantics. -/
def dset {α : Type} : List (String × α) → String → α → List (String × α)
  | [], k, v => [(k, v)]
  | p :: rest, k, v => if p.1 = k then (k, v) :: rest else p :: dset rest k v

/-- Deletion `del d[k]`. -/
def ddel {α : Type} : List (String × α) → String → List (String × α)
  | [], _ => []
  | p :: rest, k => if p.1 = k then ddel rest k else p :: ddel rest k

/-- Categories of information to discover (`DiscoveryCategory`), in the
declaration order of the Python enum. -/
inductive DiscoveryCategory : Type
  | business_context
  | network_design
  | security_identity
  | governance
  | compliance
  | operations
  | workload_planning
  | cost_budgeting
  | integration
  | disaster_recovery
deriving DecidableEq

/-- The `.value` string of a `DiscoveryCategory` member. -/
def DiscoveryCategory.value : DiscoveryCategory → String
  | .business_context => "Business Context"
  | .network_design => "Network Design"
  | .security_identity => "Security & Identity"
  | .governance => "Governance"
  | .compliance => "Compliance & Regulatory"
  | .operations => "Operations & Management"
  | .workload_planning => "Workload Planning"
  | .cost_budgeting => "Cost & Budgeting"
  | .integration => "Integration & Connectivity"
  | .disaster_recovery => "Disaster Recovery & Backup"

/-- All members of `DiscoveryCategory` in declaration order, as iterated by
`for category in DiscoveryCategory`. -/
def all_categories : List DiscoveryCategory :=
  [.business_context, .network_design, .security_identity, .governance,
   .compliance, .operations, .workload_planning, .cost_budgeting,
   .integration, .disaster_recovery]

/-- Priority levels for discovery items (`InformationPriority`). -/
inductive InformationPriority : Type
  | critical
  | high
  | medium
  | low
deriving DecidableEq

/-- The `.value` string of an `InformationPriority` member. -/
def InformationPriority.value : InformationPriority → String
  | .critical => "critical"
  | .high => "high"
  | .medium => "medium"
  | .low => "low"

/-- A single discovery question (`DiscoveryQuestion`). -/
structure DiscoveryQuestion : Type where
  id : String
  category : DiscoveryCategory
  question : String
  priority : InformationPriority
  help_text : Option String := none
  examples : Option (List String) := none
  validation_pattern : Option String := none
  default_value : Option String := none
  related_questions : Option (List String) := none
deriving DecidableEq

/-- Answer to a discovery question (`DiscoveryAnswer`). -/
structure DiscoveryAnswer : Type where
  question_id : String
  answer : String
  source : String
  confidence : ℚ
  document_reference : Option String := none
  notes : Option String := none
deriving DecidableEq

/-- Catalog question `biz_001`. -/
def biz_001 : DiscoveryQuestion :=
  { id := "biz_001"
    category := .business_context
    question := "What is the primary business objective for moving to Azure?"
    priority := .critical
    help_text := some "Understanding business drivers helps align technical decisions"
    examples := some
      ["Digital transformation initiative",
       "Cost optimization and datacenter exit",
       "Support new products/services",
       "Improve agility and time-to-market"] }

/-- Catalog question `biz_002`. -/
def biz_002 : DiscoveryQuestion :=
  { id := "biz_002"
    category := .business_context
    question := "What is the expected timeline for Azure deployment?"
    priority := .critical
    help_text := some "Timeline impacts design choices and migration strategy"
    examples := some ["3 months", "6 months", "12 months", "18+ months"] }

/-- Catalog question `biz_003`. -/
def biz_003 : DiscoveryQuestion :=
  { id := "biz_003"
    category := .business_context
    question := "What are the critical workloads to migrate first?"
    priority := .high
    help_text := some "Identifies pilot workloads and initial design requirements" }

/-- Catalog question `biz_004`. -/
def biz_004 : DiscoveryQuestion :=
  { id := "biz_004"
    category := .business_context
    question := "What is the organization's cloud maturity level?"
    priority := .medium
    examples := some
      ["No cloud experience", "Some cloud pilots", "Cloud-first strategy",
       "Multi-cloud expertise"] }

/-- Catalog question `net_001`. -/
def net_001 : DiscoveryQuestion :=
  { id := "net_001"
    category := .network_design
    question := "What IP address ranges are available for Azure VNets?"
    priority := .critical
    help_text := some "Must not conflict with on-premises or other cloud networks"
    examples := some ["10.100.0.0/16", "172.16.0.0/12", "192.168.0.0/16"]
    validation_pattern := some
      "^\\d\x7b1,3\x7d\\.\\d\x7b1,3\x7d\\.\\d\x7b1,3\x7d\\.\\d\x7b1,3\x7d/\\d\x7b1,2\x7d$" }

/-- Catalog question `net_002`. -/
def net_002 : DiscoveryQuestion :=
  { id := "net_002"
    category := .network_design
    question := "What on-premises networks need connectivity to Azure?"
    priority := .critical
    help_text := some "Determines ExpressRoute or VPN requirements" }

/-- Catalog question `net_003`. -/
def net_003 : DiscoveryQuestion :=
  { id := "net_003"
    category := .network_design
    question := "Preferred connectivity method: ExpressRoute, Site-to-Site VPN, or both?"
    priority := .critical
    examples := some
      ["ExpressRoute (dedicated, low-latency)", "S2S VPN (cost-effective)",
       "Hybrid (both for redundancy)"] }

/-- Catalog question `net_004`. -/
def net_004 : DiscoveryQuestion :=
  { id := "net_004"
    category := .network_design
    question := "What is the required ExpressRoute bandwidth?"
    priority := .high
    examples := some ["50 Mbps", "100 Mbps", "500 Mbps", "1 Gbps", "10 Gbps"]
    related_questions := some ["net_003"] }

/-- Catalog question `net_005`. -/
def net_005 : DiscoveryQuestion :=
  { id := "net_005"
    category := .network_design
    question := "What is the hub-spoke topology design? (Number of spokes, segmentation strategy)"
    priority := .high
    help_text := some "Hub-spoke is Azure Landing Zone recommended pattern" }

/-- Catalog question `net_006`. -/
def net_006 : DiscoveryQuestion :=
  { id := "net_006"
    category := .network_design
    question := "What are the DNS server IPs (on-premises and Azure)?"
    priority := .high
    examples := some ["On-prem: 10.50.10.5, 10.50.10.6", "Azure: 168.63.129.16 (default)"] }

/-- Catalog question `net_007`. -/
def net_007 : DiscoveryQuestion :=
  { id := "net_007"
    category := .network_design
    question := "Are Private Endpoints required for Azure PaaS services?"
    priority := .medium
    examples := some
      ["Yes, for all PaaS", "Only for critical services", "No, use service endpoints"] }

/-- Catalog question `sec_001`. -/
def sec_001 : DiscoveryQuestion :=
  { id := "sec_001"
    category := .security_identity
    question := "Is Multi-Factor Authentication (MFA) required for all users?"
    priority := .critical
    examples := some ["Yes, all users", "Admins only", "Conditional access based"] }

/-- Catalog question `sec_002`. -/
def sec_002 : DiscoveryQuestion :=
  { id := "sec_002"
    category := .security_identity
    question := "What is the identity provider? (Azure AD, Hybrid, Federated)"
    priority := .critical
    examples := some
      ["Azure AD (cloud-only)", "Hybrid with AD Connect", "Federated (ADFS, PingFederate)"] }

/-- Catalog question `sec_003`. -/
def sec_003 : DiscoveryQuestion :=
  { id := "sec_003"
    category := .security_identity
    question := "What encryption requirements exist? (at-rest, in-transit, CMK)"
    priority := .critical
    help_text := some "Customer-Managed Keys (CMK) vs Microsoft-managed keys" }

/-- Catalog question `sec_004`. -/
def sec_004 : DiscoveryQuestion :=
  { id := "sec_004"
    category := .security_identity
    question := "Is Privileged Identity Management (PIM) required?"
    priority := .high
    examples := some ["Yes, for all admins", "Yes, for production only", "No"] }

/-- Catalog question `sec_005`. -/
def sec_005 : DiscoveryQuestion :=
  { id := "sec_005"
    category := .security_identity
    question := "What are the firewall requirements? (Azure Firewall, NVA, both)"
    priority := .high
    examples := some
      ["Azure Firewall", "Third-party NVA (Palo Alto, Fortinet)", "Hybrid approach"] }

/-- Catalog question `sec_006`. -/
def sec_006 : DiscoveryQuestion :=
  { id := "sec_006"
    category := .security_identity
    question := "Is DDoS Protection Standard required?"
    priority := .medium
    examples := some ["Yes, for internet-facing apps", "No, Basic tier sufficient"] }

/-- Catalog question `sec_007`. -/
def sec_007 : DiscoveryQuestion :=
  { id := "sec_007"
    category := .security_identity
    question := "What SIEM solution will be used? (Sentinel, third-party)"
    priority := .medium
    examples := some ["Azure Sentinel", "Splunk", "QRadar", "Existing on-prem SIEM"] }

/-- Catalog question `gov_001`. -/
def gov_001 : DiscoveryQuestion :=
  { id := "gov_001"
    category := .governance
    question := "What is the Azure subscription strategy? (per workload, per environment, per business unit)"
    priority := .critical
    help_text := some "Subscription design impacts billing, limits, and isolation" }

/-- Catalog question `gov_002`. -/
def gov_002 : DiscoveryQuestion :=
  { id := "gov_002"
    category := .governance
    question := "What Management Group hierarchy is required?"
    priority := .high
    examples := some
      ["Tenant Root > Platform > Landing Zones", "By geography", "By business unit"] }

/-- Catalog question `gov_003`. -/
def gov_003 : DiscoveryQuestion :=
  { id := "gov_003"
    category := .governance
    question := "What mandatory tags must be enforced on all resources?"
    priority := .high
    examples := some
      ["CostCenter, Owner, Environment, Application",
       "ProjectCode, Compliance, DataClassification"] }

/-- Catalog question `gov_004`. -/
def gov_004 : DiscoveryQuestion :=
  { id := "gov_004"
    category := .governance
    question := "What naming conventions will be used for Azure resources?"
    priority := .high
    help_text := some "Consistent naming aids management and automation"
    examples := some ["<resource-type>-<workload>-<env>-<region>-<instance>"] }

/-- Catalog question `gov_005`. -/
def gov_005 : DiscoveryQuestion :=
  { id := "gov_005"
    category := .governance
    question := "Which Azure regions are approved for deployment?"
    priority := .critical
    examples := some
      ["East US, West US", "West Europe, North Europe", "Southeast Asia, East Asia"] }

/-- Catalog question `gov_006`. -/
def gov_006 : DiscoveryQuestion :=
  { id := "gov_006"
    category := .governance
    question := "What resource types are prohibited? (VM sizes, services)"
    priority := .medium
    examples := some
      ["No F-series VMs", "No Basic tier services", "No public IPs on VMs"] }

/-- Catalog question `comp_001`. -/
def comp_001 : DiscoveryQuestion :=
  { id := "comp_001"
    category := .compliance
    question := "What regulatory compliance requirements apply? (HIPAA, PCI-DSS, SOC2, ISO)"
    priority := .critical
    help_text := some "Determines required controls and certifications" }

/-- Catalog question `comp_002`. -/
def comp_002 : DiscoveryQuestion :=
  { id := "comp_002"
    category := .compliance
    question := "What is the data sovereignty requirement? (data residency, cross-border restrictions)"
    priority := .critical
    examples := some ["Data must stay in US", "EU GDPR compliance", "No restrictions"] }

/-- Catalog question `comp_003`. -/
def comp_003 : DiscoveryQuestion :=
  { id := "comp_003"
    category := .compliance
    question := "What is the required audit log retention period?"
    priority := .high
    examples := some ["90 days", "1 year", "7 years (financial)", "Indefinite"] }

/-- Catalog question `comp_004`. -/
def comp_004 : DiscoveryQuestion :=
  { id := "comp_004"
    category := .compliance
    question := "Are there specific security frameworks to follow? (NIST, CIS, Azure Security Benchmark)"
    priority := .high }

/-- Catalog question `ops_001`. -/
def ops_001 : DiscoveryQuestion :=
  { id := "ops_001"
    category := .operations
    question := "What monitoring solution will be used? (Azure Monitor, third-party)"
    priority := .high
    examples := some ["Azure Monitor + Log Analytics", "Datadog", "Dynatrace", "Hybrid"] }

/-- Catalog question `ops_002`. -/
def ops_002 : DiscoveryQuestion :=
  { id := "ops_002"
    category := .operations
    question := "What are the SLA requirements for production workloads?"
    priority := .high
    examples := some
      ["99.9% (3-9s)", "99.95% (zone-redundant)", "99.99% (4-9s)", "99.999% (5-9s)"] }

/-- Catalog question `ops_003`. -/
def ops_003 : DiscoveryQuestion :=
  { id := "ops_003"
    category := .operations
    question := "What is the maintenance window for production systems?"
    priority := .medium
    examples := some ["Saturday 2-6 AM EST", "No maintenance window (always-on)", "Flexible"] }

/-- Catalog question `ops_004`. -/
def ops_004 : DiscoveryQuestion :=
  { id := "ops_004"
    category := .operations
    question := "Is automation required for provisioning? (IaC tool preference)"
    priority := .high
    examples := some
      ["Terraform", "Bicep", "ARM Templates", "Azure DevOps Pipelines", "GitHub Actions"] }

/-- Catalog question `ops_005`. -/
def ops_005 : DiscoveryQuestion :=
  { id := "ops_005"
    category := .operations
    question := "What ticketing/ITSM system is used?"
    priority := .medium
    examples := some ["ServiceNow", "Jira Service Desk", "BMC Remedy", "Azure DevOps"] }

/-- Catalog question `dr_001`. -/
def dr_001 : DiscoveryQuestion :=
  { id := "dr_001"
    category := .disaster_recovery
    question := "What are the RPO (Recovery Point Objective) requirements?"
    priority := .critical
    help_text := some "How much data loss is acceptable"
    examples := some ["15 minutes", "1 hour", "4 hours", "24 hours"] }

/-- Catalog question `dr_002`. -/
def dr_002 : DiscoveryQuestion :=
  { id := "dr_002"
    category := .disaster_recovery
    question := "What are the RTO (Recovery Time Objective) requirements?"
    priority := .critical
    help_text := some "How quickly must systems be restored"
    examples := some ["1 hour", "4 hours", "8 hours", "24 hours"] }

/-- Catalog question `dr_003`. -/
def dr_003 : DiscoveryQuestion :=
  { id := "dr_003"
    category := .disaster_recovery
    question := "Is multi-region deployment required for DR?"
    priority := .high
    examples := some
      ["Yes, active-active", "Yes, active-passive", "No, zone-redundant sufficient"] }

/-- Catalog question `dr_004`. -/
def dr_004 : DiscoveryQuestion :=
  { id := "dr_004"
    category := .disaster_recovery
    question := "What backup retention policy is required?"
    priority := .high
    examples := some ["Daily for 30 days", "Daily/7d, Weekly/4w, Monthly/12m, Yearly/7y"] }

/-- Catalog question `cost_001`. -/
def cost_001 : DiscoveryQuestion :=
  { id := "cost_001"
    category := .cost_budgeting
    question := "What is the approved budget for Azure (Year 1)?"
    priority := .critical
    examples := some ["$100K", "$500K", "$1M", "$5M+"] }

/-- Catalog question `cost_002`. -/
def cost_002 : DiscoveryQuestion :=
  { id := "cost_002"
    category := .cost_budgeting
    question := "How should costs be allocated? (business unit, project, environment)"
    priority := .high }

/-- Catalog question `cost_003`. -/
def cost_003 : DiscoveryQuestion :=
  { id := "cost_003"
    category := .cost_budgeting
    question := "Are Azure Reservations or Savings Plans being considered?"
    priority := .medium
    examples := some
      ["Yes, 1-year commitment", "Yes, 3-year commitment", "No, pay-as-you-go"] }

/-- Catalog question `cost_004`. -/
def cost_004 : DiscoveryQuestion :=
  { id := "cost_004"
    category := .cost_budgeting
    question := "What cost alert thresholds should be configured?"
    priority := .medium
    examples := some ["80% budget warning, 90% critical", "Monthly variance >10%"] }

/-- Catalog question `int_001`. -/
def int_001 : DiscoveryQuestion :=
  { id := "int_001"
    category := .integration
    question := "What on-premises systems need integration with Azure?"
    priority := .high
    examples := some
      ["Active Directory", "SAP", "Oracle ERP", "File servers", "Databases"] }

/-- Catalog question `int_002`. -/
def int_002 : DiscoveryQuestion :=
  { id := "int_002"
    category := .integration
    question := "Are hybrid file services required? (Azure File Sync, NetApp)"
    priority := .medium }

/-- Catalog question `int_003`. -/
def int_003 : DiscoveryQuestion :=
  { id := "int_003"
    category := .integration
    question := "What third-party SaaS applications need integration?"
    priority := .medium
    examples := some ["Salesforce", "Office 365", "ServiceNow", "Workday"] }

/-- Catalog question `wkld_001`. -/
def wkld_001 : DiscoveryQuestion :=
  { id := "wkld_001"
    category := .workload_planning
    question := "How many VMs are expected in Year 1?"
    priority := .high
    examples := some ["<50", "50-200", "200-500", "500+"] }

/-- Catalog question `wkld_002`. -/
def wkld_002 : DiscoveryQuestion :=
  { id := "wkld_002"
    category := .workload_planning
    question := "What application architectures will be used? (IaaS, PaaS, containers, serverless)"
    priority := .high }

/-- Catalog question `wkld_003`. -/
def wkld_003 : DiscoveryQuestion :=
  { id := "wkld_003"
    category := .workload_planning
    question := "Is Kubernetes/AKS required? If yes, how many clusters?"
    priority := .medium }

/-- Catalog question `wkld_004`. -/
def wkld_004 : DiscoveryQuestion :=
  { id := "wkld_004"
    category := .workload_planning
    question := "What database platforms are needed? (SQL, Cosmos DB, PostgreSQL, MySQL)"
    priority := .high }

/-- The Azure Landing Zone discovery framework `DISCOVERY_QUESTIONS`, an
insertion-ordered dictionary from question id to question, in the exact
order of the Python source. -/
def DISCOVERY_QUESTIONS : List (String × DiscoveryQuestion) :=
  [("biz_001", biz_001), ("biz_002", biz_002), ("biz_003", biz_003), ("biz_004", biz_004),
   ("net_001", net_001), ("net_002", net_002), ("net_003", net_003), ("net_004", net_004),
   ("net_005", net_005), ("net_006", net_006), ("net_007", net_007),
   ("sec_001", sec_001), ("sec_002", sec_002), ("sec_003", sec_003), ("sec_004", sec_004),
   ("sec_005", sec_005), ("sec_006", sec_006), ("sec_007", sec_007),
   ("gov_001", gov_001), ("gov_002", gov_002), ("gov_003", gov_003), ("gov_004", gov_004),
   ("gov_005", gov_005), ("gov_006", gov_006),
   ("comp_001", comp_001), ("comp_002", comp_002), ("comp_003", comp_003), ("comp_004", comp_004),
   ("ops_001", ops_001), ("ops_002", ops_002), ("ops_003", ops_003), ("ops_004", ops_004),
   ("ops_005", ops_005),
   ("dr_001", dr_001), ("dr_002", dr_002), ("dr_003", dr_003), ("dr_004", dr_004),
   ("cost_001", cost_001), ("cost_002", cost_002), ("cost_003", cost_003), ("cost_004", cost_004),
   ("int_001", int_001), ("int_002", int_002), ("int_003", int_003),
   ("wkld_001", wkld_001), ("wkld_002", wkld_002), ("wkld_003", wkld_003), ("wkld_004", wkld_004)]

/-- `get_questions_by_category`: all questions of a category, in catalog order. -/
def get_questions_by_category (category : DiscoveryCategory) : List DiscoveryQuestion :=
  (DISCOVERY_QUESTIONS.map Prod.snd).filter (fun q => decide (q.category = category))

/-- `get_questions_by_priority`: all questions of a priority, in catalog order. -/
def get_questions_by_priority (priority : InformationPriority) : List DiscoveryQuestion :=
  (DISCOVERY_QUESTIONS.map Prod.snd).filter (fun q => decide (q.priority = priority))

/-- `get_critical_questions`: all CRITICAL priority questions. -/
def get_critical_questions : List DiscoveryQuestion :=
  get_questions_by_priority InformationPriority.critical

/-- Severity levels for validation findings (`ValidationSeverity`). -/
inductive ValidationSeverity : Type
  | error
  | warning
  | info
  | success
deriving DecidableEq

/-- Result of a validation check (`ValidationResult`). -/
structure ValidationResult : Type where
  severity : ValidationSeverity
  message : String
  recommendation : Option String := none
deriving DecidableEq

/-- Python substring containment `needle in haystack`. -/
def contains_sub (haystack needle : String) : Bool :=
  decide (needle.toList <:+: haystack.toList)

/-- An IPv4 network as produced by the stdlib collaborator
`ipaddress.ip_network(·, strict=False)`: a 32-bit network address with its
prefix length.  Only the dotted-quad IPv4 forms relevant to the catalog's
IP-range question are modelled; the stdlib additionally accepts IPv6 and
integer forms, which are outside the modelled collaborator interface. -/
structure IPv4Network : Type where
  network_address : Nat
  prefixlen : Nat
deriving DecidableEq

/-- Parse one decimal IPv4 octet (0–255, no leading zeros), as the stdlib does. -/
def parse_octet (s : String) : Option Nat :=
  match s.toNat? with
  | some n => if n ≤ 255 ∧ (s.length = 1 ∨ s.front ≠ '0') then some n else none
  | none => none

/-- Parse a dotted-quad IPv4 address into its 32-bit numeric value. -/
def parse_ipv4 (s : String) : Option Nat :=
  match s.splitOn "." with
  | [a, b, c, d] =>
    match parse_octet a, parse_octet b, parse_octet c, parse_octet d with
    | some x, some y, some z, some w => some (((x * 256 + y) * 256 + z) * 256 + w)
    | _, _, _, _ => none
  | _ => none

/-- `ipaddress.ip_network(s, strict=False)` for dotted-quad IPv4 input:
an optional `/prefix` (default 32), host bits masked off rather than
rejected because `strict=False`. -/
def ip_network_parse (s : String) : Option IPv4Network :=
  match s.splitOn "/" with
  | [addr] => (parse_ipv4 addr).map (fun n => ⟨n, 32⟩)
  | [addr, plen] =>
    match parse_ipv4 addr, plen.toNat? with
    | some n, some p =>
      if p ≤ 32 then some ⟨n / 2 ^ (32 - p) * 2 ^ (32 - p), p⟩ else none
    | _, _ => none
  | _ => none

/-- Numeric value of a dotted-quad IPv4 address given as four octets. -/
def ipv4 (a b c d : Nat) : Nat :=
  ((a * 256 + b) * 256 + c) * 256 + d

/-- The IPv4 private networks of the stdlib `ipaddress` module, as
`(network address, prefix length)` pairs. -/
def ipv4_private_networks : List (Nat × Nat) :=
  [(ipv4 0 0 0 0, 8), (ipv4 10 0 0 0, 8), (ipv4 127 0 0 0, 8), (ipv4 169 254 0 0, 16),
   (ipv4 172 16 0 0, 12), (ipv4 192 0 0 0, 29), (ipv4 192 0 0 170, 31), (ipv4 192 0 2 0, 24),
   (ipv4 192 168 0 0, 16), (ipv4 198 18 0 0, 15), (ipv4 198 51 100 0, 24),
   (ipv4 203 0 113 0, 24), (ipv4 240 0 0 0, 4), (ipv4 255 255 255 255, 32)]

/-- `IPv4Address.is_private`: membership in one of the private networks. -/
def ipv4_addr_is_private (n : Nat) : Bool :=
  ipv4_private_networks.any (fun net => decide (net.1 ≤ n ∧ n < net.1 + 2 ^ (32 - net.2)))

/-- `IPv4Network.is_private`: both the network address and the broadcast
address lie in private space. -/
def IPv4Network.is_private (net : IPv4Network) : Bool :=
  ipv4_addr_is_private net.network_address &&
    ipv4_addr_is_private (net.network_address + 2 ^ (32 - net.prefixlen) - 1)

/-- `AzureValidator.validate_ip_range`: validate an IP address range for an
Azure VNet.  A `ValueError` from the stdlib parse becomes the `none` branch. -/
def AzureValidator.validate_ip_range (ip_range : String) : List ValidationResult :=
  match ip_network_parse ip_range with
  | none =>
    [{ severity := .error
       message := "Invalid IP range format: " ++ ip_range
       recommendation := some "Use CIDR notation (e.g., 10.0.0.0/16)" }]
  | some network =>
    (if !network.is_private then
      [{ severity := .error
         message := "IP range " ++ ip_range ++ " is not in private address space"
         recommendation :=
           some "Use private IP ranges: 10.0.0.0/8, 172.16.0.0/12, or 192.168.0.0/16" }]
     else []) ++
    (if network.prefixlen > 29 then
      [{ severity := .warning
         message := "Subnet /" ++ toString network.prefixlen ++ " is very small (max "
           ++ toString (2 ^ (32 - network.prefixlen) - 5) ++ " usable IPs)"
         recommendation := some "Consider using /24 or larger for production workloads" }]
     else if network.prefixlen < 16 then
      [{ severity := .warning
         message := "Network /" ++ toString network.prefixlen ++ " is very large"
         recommendation :=
           some "Consider segmenting into smaller VNets for better security and management" }]
     else []) ++
    (if 16 ≤ network.prefixlen ∧ network.prefixlen ≤ 24 then
      [{ severity := .success
         message := "IP range " ++ ip_range ++ " follows Azure best practices" }]
     else [])

/-- `AzureValidator.validate_environment_separation`. -/
def AzureValidator.validate_environment_separation (answer : String) : List ValidationResult :=
  let answer_lower := answer.toLower
  if contains_sub answer_lower "subscription" && contains_sub answer_lower "separate" then
    [{ severity := .success
       message := "Subscription-level isolation follows Azure best practices"
       recommendation := some "This provides the strongest security boundary and governance" }]
  else if contains_sub answer_lower "resource group" then
    [{ severity := .info
       message := "Resource group isolation is acceptable for small deployments"
       recommendation := some "Consider subscription-level isolation for production workloads" }]
  else if contains_sub answer_lower "single" || contains_sub answer_lower "same" then
    [{ severity := .warning
       message := "Single environment approach increases risk"
       recommendation := some "Strongly recommend separating dev, test, and production environments" }]
  else []

/-- `AzureValidator.validate_backup_strategy`. -/
def AzureValidator.validate_backup_strategy (answer : String) : List ValidationResult :=
  let answer_lower := answer.toLower
  let has_rpo := contains_sub answer_lower "rpo" || contains_sub answer_lower "recovery point"
  let has_rto := contains_sub answer_lower "rto" || contains_sub answer_lower "recovery time"
  (if has_rpo && has_rto then
    [{ severity := .success
       message := "RPO and RTO objectives defined"
       recommendation := some "Ensure backup solutions meet these requirements" }]
   else
    [{ severity := .warning
       message := "Missing critical DR metrics: " ++ String.intercalate ", "
         ((if !has_rpo then ["RPO (Recovery Point Objective)"] else []) ++
          (if !has_rto then ["RTO (Recovery Time Objective)"] else []))
       recommendation := some "Define RPO and RTO to determine appropriate backup strategy" }]) ++
  (if contains_sub answer_lower "geo" || contains_sub answer_lower "region" then
    [{ severity := .success, message := "Geo-redundancy mentioned for disaster recovery" }]
   else
    [{ severity := .info
       message := "Consider geo-redundancy for critical workloads"
       recommendation := some "Azure Backup and ASR support cross-region replication" }])

/-- `AzureValidator.validate_connectivity_method`. -/
def AzureValidator.validate_connectivity_method (answer : String) : List ValidationResult :=
  let answer_lower := answer.toLower
  let has_er := contains_sub answer_lower "expressroute" || contains_sub answer_lower "express route"
  (if has_er then
    [{ severity := .success
       message := "ExpressRoute provides dedicated, low-latency connectivity"
       recommendation := some "Recommended for production workloads with high throughput needs" }]
   else if contains_sub answer_lower "vpn" then
    [{ severity := .info
       message := "VPN is cost-effective but has bandwidth/latency limitations"
       recommendation := some "Consider ExpressRoute for production workloads or high data transfer" }]
   else []) ++
  (if has_er && contains_sub answer_lower "vpn" then
    [{ severity := .success
       message := "Dual connectivity (ExpressRoute + VPN) provides redundancy"
       recommendation := some "This is the best practice for mission-critical workloads" }]
   else [])

/-- Match, at the start of the character list, the regular expression
`\$[\d,]+|\d+\s*(k|thousand|m|million)` used by `validate_budget`.
Greedy `\d+`/`\s*` matching is equivalent to maximal `takeWhile` here
because the literals that follow start with neither a digit nor a space. -/
def budget_match_at (cs : List Char) : Bool :=
  (match cs with
   | '$' :: rest =>
     match rest with
     | c :: _ => c.isDigit || c == ','
     | [] => false
   | _ => false) ||
  (match cs with
   | c :: _ =>
     c.isDigit &&
       (let after_ws := (cs.dropWhile Char.isDigit).dropWhile
          (fun ch => ch == ' ' || ch == '\t' || ch == '\n' || ch == '\r' ||
            ch == '\x0b' || ch == '\x0c')
        List.isPrefixOf "k".toList after_ws || List.isPrefixOf "thousand".toList after_ws ||
          List.isPrefixOf "m".toList after_ws || List.isPrefixOf "million".toList after_ws)
   | [] => false)

/-- `re.search` of the budget-amount pattern anywhere in the string. -/
def budget_amount_mentioned (s : String) : Bool :=
  s.toList.tails.any budget_match_at

/-- `AzureValidator.validate_budget`. -/
def AzureValidator.validate_budget (answer : String) : List ValidationResult :=
  let answer_lower := answer.toLower
  (if budget_amount_mentioned answer_lower then
    [{ severity := .success, message := "Budget amount specified" }]
   else
    [{ severity := .warning
       message := "No specific budget amount mentioned"
       recommendation := some "Define a clear budget to enable cost controls and alerts" }]) ++
  (if contains_sub answer_lower "monitor" || contains_sub answer_lower "alert" ||
      contains_sub answer_lower "budget alert" then
    [{ severity := .success
       message := "Cost monitoring mentioned"
       recommendation := some "Azure Cost Management provides budgets, alerts, and recommendations" }]
   else [])

/-- The compliance-framework keyword table of `validate_security_requirements`. -/
def security_frameworks : List (String × String) :=
  [("pci", "PCI-DSS"), ("hipaa", "HIPAA"), ("soc", "SOC 2"),
   ("iso", "ISO 27001"), ("gdpr", "GDPR"), ("fedramp", "FedRAMP")]

/-- `AzureValidator.validate_security_requirements`. -/
def AzureValidator.validate_security_requirements (answer : String) : List ValidationResult :=
  let answer_lower := answer.toLower
  let found_frameworks :=
    (security_frameworks.filter (fun p => contains_sub answer_lower p.1)).map Prod.snd
  (if found_frameworks.isEmpty then []
   else
    [{ severity := .success
       message := "Compliance frameworks identified: " ++ String.intercalate ", " found_frameworks
       recommendation := some "Ensure Landing Zone meets these compliance requirements" }]) ++
  (if contains_sub answer_lower "mfa" || contains_sub answer_lower "multi-factor" then
    [{ severity := .success, message := "MFA requirement mentioned - critical for security" }]
   else
    [{ severity := .warning
       message := "MFA not mentioned in security requirements"
       recommendation := some "Strongly recommend enforcing MFA for all user access" }])

/-- `QuestionValidator.VALIDATORS`: the per-question-id validator table. -/
def QuestionValidator.VALIDATORS : List (String × (String → List ValidationResult)) :=
  [("net_001", AzureValidator.validate_ip_range),
   ("gov_003", AzureValidator.validate_environment_separation),
   ("dr_001", AzureValidator.validate_backup_strategy),
   ("net_003", AzureValidator.validate_connectivity_method),
   ("cost_001", AzureValidator.validate_budget),
   ("sec_001", AzureValidator.validate_security_requirements)]

/-- `QuestionValidator.validate_answer`: dispatch on the question id; a
question id with no registered validator yields no findings. -/
def QuestionValidator.validate_answer (question_id : String) (answer : String) :
    List ValidationResult :=
  match dget QuestionValidator.VALIDATORS question_id with
  | some validator => validator answer
  | none => []

/-- A discovery workshop session (`DiscoverySession`).  The `timestamp` is
an opaque ISO string; `answers` is the insertion-ordered mapping from
question id to its one current answer. -/
structure DiscoverySession : Type where
  session_id : String
  timestamp : String
  answers : List (String × DiscoveryAnswer) := []
  documents_analyzed : List (Option String) := []
  completion_percentage : ℚ := 0
  missing_critical_info : List String := []
deriving DecidableEq

/-- `DiscoverySession.get_answered_count`. -/
def DiscoverySession.get_answered_count (s : DiscoverySession) : Nat :=
  s.answers.length

/-- `DiscoverySession.get_total_count`: total questions in the framework. -/
def DiscoverySession.get_total_count : Nat :=
  DISCOVERY_QUESTIONS.length

/-- `DiscoverySession.update_completion`: recompute the completion percentage
from the current answer count. -/
def DiscoverySession.update_completion (s : DiscoverySession) : DiscoverySession :=
  { s with completion_percentage :=
      ((s.answers.length : ℚ) / (DISCOVERY_QUESTIONS.length : ℚ)) * 100 }

/-- The in-memory state of `DiscoveryAgent` after a session has been started:
the live session, the pending-review `answer_cache` of low-confidence
candidates, and the configuration fields set in `__init__`.  The network,
storage and kernel clients are external collaborators and are passed to the
operations that need them as oracle parameters. -/
structure DiscoveryAgent : Type where
  session : DiscoverySession
  use_search_index : Bool := true
  auto_save_interval : Nat := 5
  confidence_threshold : ℚ := mkRat 85 100
  answer_cache : List (String × DiscoveryAnswer) := []
deriving DecidableEq

/-- `DiscoveryAgent.__init__` followed by `start_discovery_workshop` with
auto-resume finding no prior snapshot: a fresh session and the default
configuration (`confidence_threshold = 0.85`, `auto_save_interval = 5`,
empty `answer_cache`). -/
def DiscoveryAgent.start (session_id timestamp : String) : DiscoveryAgent :=
  { session :=
      { session_id := session_id
        timestamp := timestamp
        answers := []
        documents_analyzed := []
        completion_percentage := 0
        missing_critical_info := [] }
    use_search_index := true
    auto_save_interval := 5
    confidence_threshold := mkRat 85 100
    answer_cache := [] }

/-- The `DiscoveryAnswer` built by `ask_user_question` for a user reply. -/
def mk_user_answer (question : DiscoveryQuestion) (user_answer : String) : DiscoveryAnswer :=
  { question_id := question.id
    answer := user_answer
    source := "user_input"
    confidence := 1
    document_reference := none
    notes := some "Provided during interactive discovery session" }

/-- `DiscoveryAgent.ask_user_question`: record a user's answer with
validation.  The answer is written into `session.answers` unconditionally
(overwriting any prior entry for the id), completion is recomputed, and the
validation findings are returned alongside the answer.  The periodic
auto-save checkpoint is a file write with no effect on the in-memory state
(its failure is caught and logged), so it does not appear here.  Note that
the `answer_cache` is not touched. -/
def ask_user_question (a : DiscoveryAgent) (question : DiscoveryQuestion)
    (user_answer : String) : DiscoveryAgent × DiscoveryAnswer × List ValidationResult :=
  let answer := mk_user_answer question user_answer
  let validations := QuestionValidator.validate_answer question.id user_answer
  let s := { a.session with answers := dset a.session.answers question.id answer }
  ({ a with session := s.update_completion }, answer, validations)

/-- The accept branch of `DiscoveryWorkshopCLI._ask_single_question` for a
cached low-confidence candidate: `session.answers[id] = cached` followed by
`del answer_cache[id]`.  No completion recompute occurs on this path. -/
def accept_cached_answer (a : DiscoveryAgent) (question_id : String) : DiscoveryAgent :=
  match dget a.answer_cache question_id with
  | some cached =>
    { a with
        session := { a.session with answers := dset a.session.answers question_id cached }
        answer_cache := ddel a.answer_cache question_id }
  | none => a

/-- The delete branch of `DiscoveryWorkshopCLI.review_and_edit_answers`:
`del session.answers[qid]` with no completion recompute. -/
def delete_answer (a : DiscoveryAgent) (question_id : String) : DiscoveryAgent :=
  { a with session := { a.session with answers := ddel a.session.answers question_id } }

/-- One iteration of the question loop of
`DiscoveryAgent._analyze_with_search_index`, operating on the agent paired
with the `documents_used` accumulator (a Python `set`, modelled as a
first-insertion-order deduplicated list).  An already-answered question is
skipped; a candidate at or above the confidence threshold is accepted into
`session.answers`; a candidate below it is cached for review, replacing any
prior cached candidate for the id.  `cand = none` covers the no-result,
no-answer and caught-exception cases alike. -/
def resolve_search_candidate (st : DiscoveryAgent × List (Option String))
    (question : DiscoveryQuestion) (cand : Option DiscoveryAnswer) :
    DiscoveryAgent × List (Option String) :=
  if dmem st.1.session.answers question.id then st
  else
    match cand with
    | none => st
    | some answer =>
      if st.1.confidence_threshold ≤ answer.confidence then
        ({ st.1 with session :=
            { st.1.session with answers := dset st.1.session.answers question.id answer } },
         if st.2.contains answer.document_reference then st.2
         else st.2 ++ [answer.document_reference])
      else
        ({ st.1 with answer_cache := dset st.1.answer_cache question.id answer }, st.2)

/-- The question list traversed by `_analyze_with_search_index`: for each
category in enum order, the catalog questions of that category in catalog
order. -/
def questions_in_analysis_order : List DiscoveryQuestion :=
  (all_categories.map get_questions_by_category).flatten

/-- `DiscoveryAgent._analyze_with_search_index`, parametrised by the
extraction oracle (search plus `_extract_answer_from_search_results`):
resolve every catalog question, record the documents used, and recompute
completion at the end of the batch. -/
def analysis_fold (a : DiscoveryAgent)
    (extract : DiscoveryQuestion → Option DiscoveryAnswer) :
    DiscoveryAgent × List (Option String) :=
  questions_in_analysis_order.foldl
    (fun st q => resolve_search_candidate st q (extract q)) (a, [])

/-- `DiscoveryAgent._analyze_with_search_index`, continued: after the
question loop, record the documents used and recompute completion. -/
def analyze_with_search_index (a : DiscoveryAgent)
    (extract : DiscoveryQuestion → Option DiscoveryAnswer) : DiscoveryAgent :=
  let st := analysis_fold a extract
  let s := { st.1.session with documents_analyzed := st.2 }
  { st.1 with session := s.update_completion }

/-- One item of the JSON array returned by the extraction oracle in
`_extract_answers_from_document`; absent JSON keys are `none` and take the
source's defaults. -/
structure ExtractedItem : Type where
  question_id : String
  answer : String
  confidence : Option ℚ := none
  document_reference : Option String := none
deriving DecidableEq

/-- The `DiscoveryAnswer` built from one extracted item in
`_extract_answers_from_document` (`confidence` defaults to 0.8, the document
reference to the document name). -/
def mk_document_answer (document_name : String) (item : ExtractedItem) : DiscoveryAnswer :=
  { question_id := item.question_id
    answer := item.answer
    source := "document"
    confidence := item.confidence.getD (mkRat 8 10)
    document_reference := some (item.document_reference.getD document_name)
    notes := none }

/-- `DiscoveryAgent._extract_answers_from_document`: every extracted item is
stored into `session.answers` unconditionally — no already-answered check
and no confidence threshold on this path. -/
def extract_answers_from_document (a : DiscoveryAgent) (document_name : String)
    (items : List ExtractedItem) : DiscoveryAgent :=
  items.foldl
    (fun acc item =>
      let stored := dset acc.session.answers item.question_id
        (mk_document_answer document_name item)
      { acc with session := { acc.session with answers := stored } })
    a

/-- `DiscoveryAgent._analyze_from_blob_storage`, parametrised by the per-
artifact processing outcome: `none` models a caught download/processing
exception (the artifact is skipped), `some items` the extracted items (an
extraction failure inside `_extract_answers_from_document` is caught there
and yields `some []`).  Completion is recomputed once at the end. -/
def analyze_from_blob_storage (a : DiscoveryAgent)
    (artifacts : List (String × Option (List ExtractedItem))) : DiscoveryAgent :=
  let a1 := artifacts.foldl
    (fun acc art =>
      match art.2 with
      | none => acc
      | some items =>
        let acc := extract_answers_from_document acc art.1 items
        { acc with session :=
            { acc.session with
                documents_analyzed := acc.session.documents_analyzed ++ [some art.1] } })
    a
  { a1 with session := a1.session.update_completion }

/-- `DiscoveryAgent.get_missing_information`: catalog questions without an
answer, in catalog order, optionally filtered by priority. -/
def get_missing_information (a : DiscoveryAgent) (priority : Option InformationPriority) :
    List DiscoveryQuestion :=
  (DISCOVERY_QUESTIONS.filter (fun p =>
    (match priority with
     | some pr => decide (p.2.priority = pr)
     | none => true) && !dmem a.session.answers p.1)).map Prod.snd

/-- `DiscoveryAgent.get_critical_gaps`: unanswered CRITICAL priority questions. -/
def get_critical_gaps (a : DiscoveryAgent) : List DiscoveryQuestion :=
  get_missing_information a (some InformationPriority.critical)

/-- Python `round(x, 2)` on a percentage, as exact rational rounding (the
float banker's rounding of the source is approximated by rounding the exact
rational; no theorem depends on the rounded value). -/
def round2 (x : ℚ) : ℚ :=
  (round (x * 100) : ℤ) / 100

/-- The critical-answered count of `get_discovery_summary`:
`sum(1 for qid in answers if DISCOVERY_QUESTIONS[qid].priority == CRITICAL)`.
The unguarded catalog lookup raises `KeyError` on an unknown id, modelled as
`none`. -/
def critical_answered_count : List (String × DiscoveryAnswer) → Option Nat
  | [] => some 0
  | p :: rest =>
    match dget DISCOVERY_QUESTIONS p.1, critical_answered_count rest with
    | some q, some n =>
      some ((if q.priority = InformationPriority.critical then 1 else 0) + n)
    | _, _ => none

/-- One per-category row of the summary's `by_category` breakdown. -/
structure CategorySummary : Type where
  category : String
  answered : Nat
  total : Nat
  percentage : ℚ
deriving DecidableEq

/-- The `by_category` row for one category. -/
def category_summary (a : DiscoveryAgent) (category : DiscoveryCategory) : CategorySummary :=
  let category_questions := get_questions_by_category category
  let answered := (category_questions.filter (fun q => dmem a.session.answers q.id)).length
  { category := category.value
    answered := answered
    total := category_questions.length
    percentage :=
      if category_questions.length = 0 then 0
      else (answered : ℚ) / (category_questions.length : ℚ) * 100 }

/-- The record returned by `get_discovery_summary` (the nested
`critical_questions` dictionary is flattened into three fields). -/
structure DiscoverySummary : Type where
  session_id : String
  timestamp : String
  total_questions : Nat
  answered : Nat
  completion_percentage : ℚ
  documents_analyzed : Nat
  answers_from_documents : Nat
  answers_from_user : Nat
  critical_answered : Nat
  critical_total : Nat
  critical_percentage : ℚ
  by_category : List CategorySummary
  missing_critical : List String
deriving DecidableEq

/-- `DiscoveryAgent.get_discovery_summary`.  The only failing computation is
the unguarded catalog lookup in the critical-answered count, so the summary
is `none` exactly when some answered id is unknown to the catalog. -/
def get_discovery_summary (a : DiscoveryAgent) : Option DiscoverySummary :=
  match critical_answered_count a.session.answers with
  | none => none
  | some critical_answered =>
    some
      { session_id := a.session.session_id
        timestamp := a.session.timestamp
        total_questions := DISCOVERY_QUESTIONS.length
        answered := a.session.answers.length
        completion_percentage := round2 a.session.completion_percentage
        documents_analyzed := a.session.documents_analyzed.length
        answers_from_documents :=
          (a.session.answers.filter (fun p => decide (p.2.source = "document"))).length
        answers_from_user :=
          (a.session.answers.filter (fun p => decide (p.2.source = "user_input"))).length
        critical_answered := critical_answered
        critical_total := get_critical_questions.length
        critical_percentage :=
          if get_critical_questions.length > 0 then
            round2 ((critical_answered : ℚ) / (get_critical_questions.length : ℚ) * 100)
          else 0
        by_category := all_categories.map (category_summary a)
        missing_critical := (get_critical_gaps a).map DiscoveryQuestion.question }

/-- One element of the `answers` array of an exported snapshot, with the
question's static metadata joined in at export time. -/
structure ExportedAnswer : Type where
  question_id : String
  question : String
  category : String
  priority : String
  answer : String
  source : String
  confidence : ℚ
  document_reference : Option String
deriving DecidableEq

/-- One element of the `missing_information` array of an exported snapshot. -/
structure MissingInformationEntry : Type where
  question_id : String
  question : String
  category : String
  priority : String
  help_text : Option String
  examples : Option (List String)
deriving DecidableEq

/-- The exported snapshot record written by `export_discovery_results`. -/
structure ExportResults : Type where
  session_id : String
  session_timestamp : String
  session_completion : ℚ
  summary : DiscoverySummary
  answers : List ExportedAnswer
  missing_information : List MissingInformationEntry
deriving DecidableEq

/-- Build one exported answer; the unguarded `DISCOVERY_QUESTIONS[qid]`
lookups raise `KeyError` on an unknown id, modelled as `none`. -/
def export_entry (p : String × DiscoveryAnswer) : Option ExportedAnswer :=
  (dget DISCOVERY_QUESTIONS p.1).map (fun q =>
    { question_id := p.1
      question := q.question
      category := q.category.value
      priority := q.priority.value
      answer := p.2.answer
      source := p.2.source
      confidence := p.2.confidence
      document_reference := p.2.document_reference })

/-- The `answers` list comprehension of `export_discovery_results`; `none`
as soon as any entry raises. -/
def export_answer_list : List (String × DiscoveryAnswer) → Option (List ExportedAnswer)
  | [] => some []
  | p :: rest =>
    match export_entry p, export_answer_list rest with
    | some e, some es => some (e :: es)
    | _, _ => none

/-- The `missing_information` entry for one still-missing question. -/
def missing_entry (q : DiscoveryQuestion) : MissingInformationEntry :=
  { question_id := q.id
    question := q.question
    category := q.category.value
    priority := q.priority.value
    help_text := q.help_text
    examples := q.examples }

/-- `DiscoveryAgent.export_discovery_results` (the in-memory snapshot record;
the file write itself is I/O).  `none` models the `KeyError` raised when an
answered question id is not in the catalog — either inside
`get_discovery_summary` or in the answers comprehension. -/
def export_discovery_results (a : DiscoveryAgent) : Option ExportResults :=
  match get_discovery_summary a, export_answer_list a.session.answers with
  | some summary, some answers =>
    some
      { session_id := a.session.session_id
        session_timestamp := a.session.timestamp
        session_completion := a.session.completion_percentage
        summary := summary
        answers := answers
        missing_information := (get_missing_information a none).map missing_entry }
  | _, _ => none

/-- The `DiscoveryAnswer` rebuilt from one snapshot entry on import (the
`notes` field is not part of the snapshot and is absent). -/
def imported_answer (e : ExportedAnswer) : DiscoveryAnswer :=
  { question_id := e.question_id
    answer := e.answer
    source := e.source
    confidence := e.confidence
    document_reference := e.document_reference
    notes := none }

/-- `DiscoveryAgent.import_discovery_results` on a well-formed snapshot: a
fresh session is built, every snapshot answer is written into its answer
mapping keyed by `question_id` — with no check that the id exists in the
catalog — and completion is recomputed.
(`_auto_load_previous_session` performs the same answer-loading loop over
the latest snapshot file.) -/
def import_discovery_results (r : ExportResults) : DiscoverySession :=
  let s : DiscoverySession :=
    { session_id := r.session_id
      timestamp := r.session_timestamp
      answers := r.answers.foldl (fun d e => dset d e.question_id (imported_answer e)) []
      documents_analyzed := []
      completion_percentage := 0
      missing_critical_info := [] }
  s.update_completion

/-- The consistency predicate of the spec:
`completion_percentage == 100 * len(answers) / len(catalog)`. -/
def completionConsistent (s : DiscoverySession) : Prop :=
  s.completion_percentage = 100 * (s.answers.length : ℚ) / (DISCOVERY_QUESTIONS.length : ℚ)

/-- The authoritative per-answer core compared on reimport: question id,
answer text, source, confidence and document reference. -/
def answer_core (p : String × DiscoveryAnswer) : String × String × String × ℚ × Option String :=
  (p.1, p.2.answer, p.2.source, p.2.confidence, p.2.document_reference)

/-- Fixture: a low-confidence automated candidate for `biz_001`. -/
def cached_candidate_biz_001 : DiscoveryAnswer :=
  { question_id := "biz_001"
    answer := "Datacenter exit"
    source := "search_index"
    confidence := mkRat 5 10
    document_reference := some "strategy.docx"
    notes := none }

/-- Fixture: a fresh agent that holds `cached_candidate_biz_001` in its
pending-review cache and has no recorded answers. -/
def agent_with_cache : DiscoveryAgent :=
  { DiscoveryAgent.start "workshop_1" "2024-01-01T00:00:00" with
      answer_cache := [("biz_001", cached_candidate_biz_001)] }

/-- Fixture: a high-confidence search-index answer for `biz_001`. -/
def search_answer_biz_001 : DiscoveryAnswer :=
  { question_id := "biz_001"
    answer := "Digital transformation initiative"
    source := "search_index"
    confidence := mkRat 9 10
    document_reference := some "strategy.docx"
    notes := none }

/-- Fixture: the agent after a first automated resolution accepted
`search_answer_biz_001` (confidence 0.9 ≥ threshold 0.85). -/
def agent_after_first_candidate : DiscoveryAgent :=
  (resolve_search_candidate (DiscoveryAgent.start "workshop_2" "2024-01-02T00:00:00", [])
    biz_001 (some search_answer_biz_001)).1

/-- Fixture: a later document-extraction item for the already-answered
`biz_001`. -/
def doc_item_biz_001 : ExtractedItem :=
  { question_id := "biz_001"
    answer := "Support new products/services"
    confidence := some (mkRat 6 10)
    document_reference := some "notes.txt" }

/-- Fixture: a high-confidence candidate for `net_001`. -/
def high_candidate_net_001 : DiscoveryAnswer :=
  { question_id := "net_001"
    answer := "10.100.0.0/16"
    source := "search_index"
    confidence := mkRat 9 10
    document_reference := some "network.xlsx"
    notes := none }

/-- Fixture: a low-confidence candidate for `net_001`. -/
def low_candidate_net_001 : DiscoveryAnswer :=
  { question_id := "net_001"
    answer := "192.168.0.0/16"
    source := "search_index"
    confidence := mkRat 5 10
    document_reference := some "network.xlsx"
    notes := none }

/-- Fixture: a snapshot answer entry whose question id `zzz_999` is not in
the catalog. -/
def unknown_exported_answer : ExportedAnswer :=
  { question_id := "zzz_999"
    question := "A question removed from the catalog"
    category := "Business Context"
    priority := "high"
    answer := "legacy value"
    source := "user_input"
    confidence := 1
    document_reference := none }

/-- Fixture: a placeholder summary for hand-built snapshots (import ignores
the summary entirely). -/
def placeholder_summary : DiscoverySummary :=
  { session_id := "old_session"
    timestamp := "2023-12-01T00:00:00"
    total_questions := 48
    answered := 1
    completion_percentage := 0
    documents_analyzed := 0
    answers_from_documents := 0
    answers_from_user := 1
    critical_answered := 0
    critical_total := 15
    critical_percentage := 0
    by_category := []
    missing_critical := [] }

/-- Fixture: a snapshot whose only answer references the unknown id
`zzz_999`. -/
def snapshot_with_unknown_id : ExportResults :=
  { session_id := "old_session"
    session_timestamp := "2023-12-01T00:00:00"
    session_completion := 0
    summary := placeholder_summary
    answers := [unknown_exported_answer]
    missing_information := [] }

/-- Fixture: an agent with one recorded catalog answer (for `biz_001`). -/
def agent_with_answer : DiscoveryAgent :=
  { DiscoveryAgent.start "workshop_3" "2024-01-03T00:00:00" with
      session := { session_id := "workshop_3"
                   timestamp := "2024-01-03T00:00:00"
                   answers := [("biz_001", search_answer_biz_001)]
                   documents_analyzed := []
                   completion_percentage := mkRat 100 48
                   missing_critical_info := [] } }

/-- Fixture: an agent whose answer mapping contains the unknown id
`zzz_999` (for example after importing `snapshot_with_unknown_id`). -/
def agent_with_unknown_answer : DiscoveryAgent :=
  { DiscoveryAgent.start "workshop_4" "2024-01-04T00:00:00" with
      session := { session_id := "workshop_4"
                   timestamp := "2024-01-04T00:00:00"
                   answers := [("zzz_999", imported_answer unknown_exported_answer)]
                   documents_analyzed := []
                   completion_percentage := mkRat 100 48
                   missing_critical_info := [] } }

theorem dget_dset_self {α : Type} (l : List (String × α)) (k : String) (v : α) :
    dget (dset l k v) k = some v := by
  induction l with
  | nil => simp [dset, dget]
  | cons p rest ih =>
    by_cases h : p.1 = k
    · simp [dset, h, dget]
    · simp [dset, h, dget, ih]

theorem dget_dset_ne {α : Type} (l : List (String × α)) (k k' : String) (v : α)
    (h : k' ≠ k) : dget (dset l k v) k' = dget l k' := by
  induction l with
  | nil => simp [dset, dget, Ne.symm h]
  | cons p rest ih =>
    by_cases hp : p.1 = k
    · simp [dset, hp, dget, Ne.symm h]
    · simp only [dset, hp, if_false, dget, ih]

theorem dmem_dset_self {α : Type} (l : List (String × α)) (k : String) (v : α) :
    dmem (dset l k v) k = true := by
  induction l with
  | nil => simp [dset, dmem]
  | cons p rest ih =>
    by_cases h : p.1 = k
    · simp [dset, h, dmem]
    · simp [dset, h, dmem, ih]

theorem dmem_dset_ne {α : Type} (l : List (String × α)) (k k' : String) (v : α)
    (h : k' ≠ k) : dmem (dset l k v) k' = dmem l k' := by
  induction l with
  | nil => simp [dset, dmem, Ne.symm h]
  | cons p rest ih =>
    by_cases hp : p.1 = k
    · simp [dset, hp, dmem, Ne.symm h]
    · simp only [dset, hp, if_false, dmem, ih]

theorem dmem_eq_true_iff {α : Type} (l : List (String × α)) (k : String) :
    dmem l k = true ↔ ∃ v, dget l k = some v := by
  induction l with
  | nil => simp [dmem, dget]
  | cons p rest ih =>
    by_cases h : p.1 = k
    · simp [dmem, dget, h]
    · simp [dmem, dget, h, ih]

theorem dmem_eq_false_iff {α : Type} (l : List (String × α)) (k : String) :
    dmem l k = false ↔ dget l k = none := by
  induction l with
  | nil => simp [dmem, dget]
  | cons p rest ih =>
    by_cases h : p.1 = k
    · simp [dmem, dget, h]
    · simp [dmem, dget, h, ih]

theorem dget_some_mem {α : Type} (l : List (String × α)) (k : String) (v : α)
    (h : dget l k = some v) : (k, v) ∈ l := by
  induction l with
  | nil => simp [dget] at h
  | cons p rest ih =>
    by_cases hp : p.1 = k
    · simp only [dget, hp, if_true] at h
      cases h
      subst hp
      exact List.mem_cons_self _ _
    · simp only [dget, hp, if_false] at h
      exact List.mem_cons_of_mem _ (ih h)

theorem dmem_of_mem {α : Type} (l : List (String × α)) (p : String × α)
    (h : p ∈ l) : dmem l p.1 = true := by
  induction l with
  | nil => simp at h
  | cons q rest ih =>
    rcases List.mem_cons.mp h with h | h
    · subst h
      simp [dmem]
    · by_cases hq : q.1 = p.1
      · simp [dmem, hq]
      · simp [dmem, hq, ih h]

theorem dmem_ddel_self {α : Type} (l : List (String × α)) (k : String) :
    dmem (ddel l k) k = false := by
  induction l with
  | nil => simp [ddel, dmem]
  | cons p rest ih =>
    by_cases h : p.1 = k
    · simp [ddel, h, ih]
    · simp [ddel, h, dmem, ih]

theorem dset_eq_append {α : Type} (l : List (String × α)) (k : String) (v : α)
    (h : dmem l k = false) : dset l k v = l ++ [(k, v)] := by
  induction l with
  | nil => simp [dset]
  | cons p rest ih =>
    by_cases hp : p.1 = k
    · simp [dmem, hp] at h
    · simp only [dmem, hp, if_false] at h
      simp [dset, hp, ih h]

theorem dmem_append_single {α : Type} (l : List (String × α)) (k0 : String) (v : α)
    (k : String) : dmem (l ++ [(k0, v)]) k = (dmem l k || decide (k0 = k)) := by
  induction l with
  | nil =>
    by_cases h : k0 = k
    · simp [dmem, h]
    · simp [dmem, h]
  | cons p rest ih =>
    by_cases hp : p.1 = k
    · simp [dmem, hp]
    · simp [dmem, hp, ih]

/-- Claim C1 (amended): recording a user-supplied answer
(`DiscoveryAgent.ask_user_question`) always writes the freshly built answer —
with `source == "user_input"` and `confidence == 1.0` — into
`Session.answers[question.id]`, overwriting whatever was there before,
regardless of prior state; but it does NOT remove a pending `answer_cache`
entry for that id: the pending-review cache is left entirely unchanged. -/
theorem c1_user_answer_always_wins (a : DiscoveryAgent) (question : DiscoveryQuestion)
    (user_answer : String) :
    dget (ask_user_question a question user_answer).1.session.answers question.id
      = some (mk_user_answer question user_answer) ∧
    (mk_user_answer question user_answer).source = "user_input" ∧
    (mk_user_answer question user_answer).confidence = 1 ∧
    (ask_user_question a question user_answer).1.answer_cache = a.answer_cache := by
  refine ⟨?_, rfl, rfl, rfl⟩
  show dget (dset a.session.answers question.id (mk_user_answer question user_answer))
    question.id = some (mk_user_answer question user_answer)
  exact dget_dset_self ..

/-- Claim C1, counterexample to the claim as stated: starting from an agent
whose pending cache holds an entry for `biz_001`, recording a user answer
for `biz_001` does not remove that cache entry — refuting the claim's
"removes any pending-cache (answer_cache) entry for that id" conjunct. -/
theorem c1_cache_entry_not_removed :
    ¬ (dget (ask_user_question agent_with_cache biz_001
        "Digital transformation initiative").1.answer_cache "biz_001" = none) := by
  decide

theorem completionConsistent_update (s : DiscoverySession) :
    completionConsistent s.update_completion := by
  show ((s.answers.length : ℚ) / (DISCOVERY_QUESTIONS.length : ℚ)) * 100
      = 100 * (s.answers.length : ℚ) / (DISCOVERY_QUESTIONS.length : ℚ)
  ring

/-- Claim C2 (amended): `completion_percentage` equals
`100 * |answers| / |catalog|` immediately after recording a user answer,
after a search-index analysis batch, after a blob-storage analysis batch,
and after an import/resume — each of these ends with `update_completion`.
The claim as stated fails for the two workshop mutations that skip the
recompute: accepting a cached candidate (see the counterexample) and
deleting an answer during review, both of which change `Session.answers`
and leave `completion_percentage` stale. -/
theorem c2_completion_recomputed (a : DiscoveryAgent) (question : DiscoveryQuestion)
    (user_answer : String) (extract : DiscoveryQuestion → Option DiscoveryAnswer)
    (artifacts : List (String × Option (List ExtractedItem))) (r : ExportResults) :
    completionConsistent (ask_user_question a question user_answer).1.session ∧
    completionConsistent (analyze_with_search_index a extract).session ∧
    completionConsistent (analyze_from_blob_storage a artifacts).session ∧
    completionConsistent (import_discovery_results r) :=
  ⟨completionConsistent_update _, completionConsistent_update _,
   completionConsistent_update _, completionConsistent_update _⟩

/-- Claim C2, counterexample to the claim as stated: accepting the cached
candidate for `biz_001` (the workshop's cached-answer acceptance path) adds
an answer without recomputing completion, so afterwards
`completion_percentage = 0` while `100 * |answers| / |catalog| = 100/43`. -/
theorem c2_stale_after_cached_accept :
    ¬ completionConsistent (accept_cached_answer agent_with_cache "biz_001").session := by
  intro h
  have h1 : (accept_cached_answer agent_with_cache "biz_001").session.completion_percentage
      = 0 := by decide
  have h2 : (accept_cached_answer agent_with_cache "biz_001").session.answers.length = 1 := by
    decide
  have h3 : DISCOVERY_QUESTIONS.length = 48 := by decide
  simp only [completionConsistent, h1, h2, h3] at h
  norm_num at h

/-- Claim C3 (amended): accepting a cached candidate for an id does restore
per-id exclusivity — the id is removed from the pending cache and its
candidate becomes the session answer.  The claim as stated — that no id is
ever simultaneously in `Session.answers` and in `answer_cache` after any
core operation — fails, because recording a user answer never clears the
cache (see the counterexample). -/
theorem c3_accept_restores_exclusivity (a : DiscoveryAgent) (question_id : String)
    (h : dmem a.answer_cache question_id = true) :
    dmem (accept_cached_answer a question_id).answer_cache question_id = false ∧
    dget (accept_cached_answer a question_id).session.answers question_id
      = dget a.answer_cache question_id := by
  obtain ⟨v, hv⟩ := (dmem_eq_true_iff a.answer_cache question_id).mp h
  unfold accept_cached_answer
  rw [hv]
  exact ⟨dmem_ddel_self .., by rw [dget_dset_self]⟩

theorem c3_accept_witness :
    dmem (accept_cached_answer agent_with_cache "biz_001").answer_cache "biz_001" = false ∧
    dget (accept_cached_answer agent_with_cache "biz_001").session.answers "biz_001"
      = dget agent_with_cache.answer_cache "biz_001" :=
  c3_accept_restores_exclusivity agent_with_cache "biz_001" (by decide)

/-- Claim C3, counterexample to the claim as stated: after recording a user
answer for `biz_001` while a cached candidate for `biz_001` is pending, the
id is simultaneously a key of `Session.answers` and of `answer_cache`. -/
theorem c3_both_present :
    dmem (ask_user_question agent_with_cache biz_001
        "Cost optimization and datacenter exit").1.session.answers "biz_001" = true ∧
    dmem (ask_user_question agent_with_cache biz_001
        "Cost optimization and datacenter exit").1.answer_cache "biz_001" = true :=
  ⟨by decide, by decide⟩

theorem resolve_preserves_answered (st : DiscoveryAgent × List (Option String))
    (question : DiscoveryQuestion) (cand : Option DiscoveryAnswer) (qid : String)
    (h : dmem st.1.session.answers qid = true) :
    dmem (resolve_search_candidate st question cand).1.session.answers qid = true ∧
    dget (resolve_search_candidate st question cand).1.session.answers qid
      = dget st.1.session.answers qid := by
  unfold resolve_search_candidate
  by_cases hq : dmem st.1.session.answers question.id = true
  · rw [if_pos hq]
    exact ⟨h, rfl⟩
  · rw [if_neg hq]
    cases cand with
    | none => exact ⟨h, rfl⟩
    | some answer =>
      dsimp only
      have hne : qid ≠ question.id := fun he => hq (he ▸ h)
      by_cases hc : st.1.confidence_threshold ≤ answer.confidence
      · rw [if_pos hc]
        refine ⟨?_, ?_⟩
        · show dmem (dset st.1.session.answers question.id answer) qid = true
          rw [dmem_dset_ne _ _ _ _ hne]
          exact h
        · show dget (dset st.1.session.answers question.id answer) qid
            = dget st.1.session.answers qid
          exact dget_dset_ne _ _ _ _ hne
      · rw [if_neg hc]
        exact ⟨h, rfl⟩

theorem fold_resolve_preserves_answered (qs : List DiscoveryQuestion)
    (extract : DiscoveryQuestion → Option DiscoveryAnswer) :
    ∀ (st : DiscoveryAgent × List (Option String)) (qid : String),
      dmem st.1.session.answers qid = true →
      dmem (qs.foldl (fun st q => resolve_search_candidate st q (extract q))
        st).1.session.answers qid = true ∧
      dget (qs.foldl (fun st q => resolve_search_candidate st q (extract q))
        st).1.session.answers qid = dget st.1.session.answers qid := by
  induction qs with
  | nil =>
    intro st qid h
    exact ⟨h, rfl⟩
  | cons q rest ih =>
    intro st qid h
    have step := resolve_preserves_answered st q (extract q) qid h
    have tail := ih (resolve_search_candidate st q (extract q)) qid step.1
    simp only [List.foldl_cons]
    exact ⟨tail.1, tail.2.trans step.2⟩

/-- Claim C4 (amended): on the search-index path an automated candidate
never overwrites an answer already present in `Session.answers` — a second
analysis pass leaves the stored answer for an already-answered id exactly as
it was (first-accepted wins).  The claim as stated fails for the
document-extraction path, which stores every extracted candidate with no
already-answered check (see the counterexample). -/
theorem analysis_fold_preserves_answered (a : DiscoveryAgent)
    (extract : DiscoveryQuestion → Option DiscoveryAnswer) (qid : String)
    (h : dmem a.session.answers qid = true) :
    dget (analysis_fold a extract).1.session.answers qid = dget a.session.answers qid := by
  unfold analysis_fold
  exact (fold_resolve_preserves_answered questions_in_analysis_order extract (a, []) qid h).2

/-- Claim C4 (amended), main statement. -/
theorem c4_search_path_first_wins (a : DiscoveryAgent)
    (extract : DiscoveryQuestion → Option DiscoveryAnswer) (qid : String)
    (h : dmem a.session.answers qid = true) :
    dget (analyze_with_search_index a extract).session.answers qid
      = dget a.session.answers qid := by
  unfold analyze_with_search_index
  dsimp only [DiscoverySession.update_completion]
  exact analysis_fold_preserves_answered a extract qid h

theorem c4_search_path_witness :
    dget (analyze_with_search_index agent_after_first_candidate
        (fun _ => none)).session.answers "biz_001"
      = dget agent_after_first_candidate.session.answers "biz_001" :=
  c4_search_path_first_wins agent_after_first_candidate (fun _ => none) "biz_001" (by decide)

/-- Claim C4, counterexample to the claim as stated: after a first automated
candidate for `biz_001` was accepted (confidence 0.9 ≥ threshold), a second
automated invocation through `_extract_answers_from_document` changes the
stored answer for `biz_001` — the document path overwrites unconditionally. -/
theorem c4_document_path_overwrites :
    dget (extract_answers_from_document agent_after_first_candidate "notes.txt"
        [doc_item_biz_001]).session.answers "biz_001"
      ≠ dget agent_after_first_candidate.session.answers "biz_001" := by
  decide

theorem resolve_not_answered (a : DiscoveryAgent) (docs : List (Option String))
    (question : DiscoveryQuestion) (answer : DiscoveryAnswer)
    (h : dmem a.session.answers question.id = false) :
    resolve_search_candidate (a, docs) question (some answer)
      = if a.confidence_threshold ≤ answer.confidence then
          ({ a with session := { a.session with
              answers := dset a.session.answers question.id answer } },
           if docs.contains answer.document_reference then docs
           else docs ++ [answer.document_reference])
        else ({ a with answer_cache := dset a.answer_cache question.id answer }, docs) := by
  unfold resolve_search_candidate
  rw [h]
  rfl

/-- Claim C5: for an automated candidate for a question not yet answered,
the search-index resolver accepts it directly into `Session.answers` when
its confidence is at least the threshold, and otherwise places it into the
pending-review cache keyed by the question id, replacing any prior cached
candidate (leaving `Session.answers` untouched); the analysis batch ends by
recomputing completion, and the threshold defaults to 0.85 at construction. -/
theorem c5_threshold_resolution (a : DiscoveryAgent) (docs : List (Option String))
    (question : DiscoveryQuestion) (answer : DiscoveryAnswer)
    (h : dmem a.session.answers question.id = false) :
    (a.confidence_threshold ≤ answer.confidence →
      dget (resolve_search_candidate (a, docs) question
        (some answer)).1.session.answers question.id = some answer) ∧
    (answer.confidence < a.confidence_threshold →
      (resolve_search_candidate (a, docs) question (some answer)).1.session.answers
          = a.session.answers ∧
      dget (resolve_search_candidate (a, docs) question
        (some answer)).1.answer_cache question.id = some answer) ∧
    (∀ extract, completionConsistent (analyze_with_search_index a extract).session) ∧
    (∀ session_id timestamp,
      (DiscoveryAgent.start session_id timestamp).confidence_threshold = 0.85) := by
  refine ⟨?_, ?_, fun extract => completionConsistent_update _, fun _ _ => by
    show mkRat 85 100 = (0.85 : ℚ)
    norm_num [mkRat, Rat.normalize]⟩
  · intro hc
    rw [resolve_not_answered _ _ _ _ h, if_pos hc]
    exact dget_dset_self ..
  · intro hc
    rw [resolve_not_answered _ _ _ _ h, if_neg (not_le.mpr hc)]
    exact ⟨rfl, dget_dset_self ..⟩

theorem c5_threshold_witness :
    dget (resolve_search_candidate (DiscoveryAgent.start "workshop_5" "2024-01-05T00:00:00", [])
        net_001 (some high_candidate_net_001)).1.session.answers "net_001"
      = some high_candidate_net_001 ∧
    dget (resolve_search_candidate (DiscoveryAgent.start "workshop_5" "2024-01-05T00:00:00", [])
        net_001 (some low_candidate_net_001)).1.answer_cache "net_001"
      = some low_candidate_net_001 :=
  ⟨(c5_threshold_resolution (DiscoveryAgent.start "workshop_5" "2024-01-05T00:00:00") []
      net_001 high_candidate_net_001 (by decide)).1 (by decide),
   ((c5_threshold_resolution (DiscoveryAgent.start "workshop_5" "2024-01-05T00:00:00") []
      net_001 low_candidate_net_001 (by decide)).2.1 (by decide)).2⟩

theorem export_answer_list_spec (l : List (String × DiscoveryAnswer))
    (hcat : ∀ p ∈ l, dmem DISCOVERY_QUESTIONS p.1 = true) :
    ∃ es, export_answer_list l = some es ∧
      (es.map (fun e => (e.question_id, imported_answer e))).map answer_core
        = l.map answer_core ∧
      es.map ExportedAnswer.question_id = l.map Prod.fst := by
  induction l with
  | nil => exact ⟨[], rfl, rfl, rfl⟩
  | cons p rest ih =>
    obtain ⟨v, hv⟩ := (dmem_eq_true_iff ..).mp (hcat p (List.mem_cons_self ..))
    obtain ⟨es, hes, hmap, hkeys⟩ := ih (fun q hq => hcat q (List.mem_cons_of_mem _ hq))
    refine ⟨{ question_id := p.1, question := v.question, category := v.category.value,
              priority := v.priority.value, answer := p.2.answer, source := p.2.source,
              confidence := p.2.confidence,
              document_reference := p.2.document_reference } :: es, ?_, ?_, ?_⟩
    · simp [export_answer_list, export_entry, hv, hes]
    · simp only [List.map_cons, hmap]
      rfl
    · simp only [List.map_cons, hkeys]

theorem critical_answered_count_isSome (l : List (String × DiscoveryAnswer))
    (hcat : ∀ p ∈ l, dmem DISCOVERY_QUESTIONS p.1 = true) :
    ∃ n, critical_answered_count l = some n := by
  induction l with
  | nil => exact ⟨0, rfl⟩
  | cons p rest ih =>
    obtain ⟨v, hv⟩ := (dmem_eq_true_iff ..).mp (hcat p (List.mem_cons_self ..))
    obtain ⟨n, hn⟩ := ih (fun q hq => hcat q (List.mem_cons_of_mem _ hq))
    exact ⟨(if v.priority = InformationPriority.critical then 1 else 0) + n, by
      simp [critical_answered_count, hv, hn]⟩

theorem fold_dset_eq (es : List ExportedAnswer) :
    ∀ acc : List (String × DiscoveryAnswer),
      (es.map ExportedAnswer.question_id).Nodup →
      (∀ e ∈ es, dmem acc e.question_id = false) →
      es.foldl (fun d e => dset d e.question_id (imported_answer e)) acc
        = acc ++ es.map (fun e => (e.question_id, imported_answer e)) := by
  induction es with
  | nil =>
    intro acc _ _
    simp
  | cons e rest ih =>
    intro acc hnd hdisj
    rw [List.map_cons, List.nodup_cons] at hnd
    simp only [List.foldl_cons]
    rw [dset_eq_append _ _ _ (hdisj e (List.mem_cons_self ..))]
    rw [ih (acc ++ [(e.question_id, imported_answer e)]) hnd.2 ?_]
    · simp
    · intro e' he'
      rw [dmem_append_single]
      have h1 : dmem acc e'.question_id = false := hdisj e' (List.mem_cons_of_mem _ he')
      have h2 : e.question_id ≠ e'.question_id := by
        intro heq
        exact hnd.1 (heq ▸ List.mem_map_of_mem _ he')
      simp [h1, h2]

/-- Claim C6: for a session whose answer mapping has unique keys (a Python
dict invariant) that all reference catalog questions, exporting a snapshot
and importing it reproduces an identical answers mapping — the same
question ids in the same order, and for each id the same answer text,
source, confidence and document reference (compared via `answer_core`; the
`notes` field is not part of the snapshot). -/
theorem c6_export_import_roundtrip (a : DiscoveryAgent)
    (hnd : (a.session.answers.map Prod.fst).Nodup)
    (hcat : ∀ p ∈ a.session.answers, dmem DISCOVERY_QUESTIONS p.1 = true) :
    ∃ r, export_discovery_results a = some r ∧
      (import_discovery_results r).answers.map answer_core
        = a.session.answers.map answer_core := by
  obtain ⟨es, hes, hmap, hkeys⟩ := export_answer_list_spec a.session.answers hcat
  obtain ⟨n, hn⟩ := critical_answered_count_isSome a.session.answers hcat
  have hsum : ∃ su, get_discovery_summary a = some su := by
    unfold get_discovery_summary
    rw [hn]
    exact ⟨_, rfl⟩
  obtain ⟨su, hsu⟩ := hsum
  refine ⟨{ session_id := a.session.session_id
            session_timestamp := a.session.timestamp
            session_completion := a.session.completion_percentage
            summary := su
            answers := es
            missing_information := (get_missing_information a none).map missing_entry }, ?_, ?_⟩
  · unfold export_discovery_results
    rw [hsu, hes]
  · unfold import_discovery_results DiscoverySession.update_completion
    dsimp only
    rw [fold_dset_eq es [] (by rw [hkeys]; exact hnd) (fun e _ => rfl)]
    simp only [List.nil_append]
    exact hmap

theorem c6_roundtrip_witness :
    ∃ r, export_discovery_results agent_with_answer = some r ∧
      (import_discovery_results r).answers.map answer_core
        = agent_with_answer.session.answers.map answer_core :=
  c6_export_import_roundtrip agent_with_answer (by decide) (by decide)

theorem filter_pair_map (l : List (String × DiscoveryQuestion)) (f : DiscoveryQuestion → Bool)
    (g : String → Bool) (hids : ∀ p ∈ l, p.1 = p.2.id) :
    (l.filter (fun p => f p.2 && g p.1)).map Prod.snd
      = (l.map Prod.snd).filter (fun q => f q && g q.id) := by
  induction l with
  | nil => rfl
  | cons p rest ih =>
    have hp := hids p (List.mem_cons_self ..)
    have ihr := ih (fun q hq => hids q (List.mem_cons_of_mem _ hq))
    simp only [List.filter_cons, List.map_cons, hp]
    by_cases hc : (f p.2 && g p.2.id) = true
    · rw [if_pos hc, if_pos hc, List.map_cons, ihr]
    · rw [if_neg hc, if_neg hc, ihr]

theorem my_filter_eq_nil {α : Type} (p : α → Bool) (l : List α) :
    l.filter p = [] ↔ ∀ x ∈ l, p x = false := by
  induction l with
  | nil => simp
  | cons a rest ih =>
    by_cases h : p a = true
    · simp [List.filter_cons, h]
    · rw [Bool.not_eq_true] at h
      simp [List.filter_cons, h, ih]

/-- Claim C7: `get_critical_gaps` returns exactly the CRITICAL-priority
catalog questions whose ids are not keys of `Session.answers`, in catalog
definition order (it is the catalog value list filtered in place), and it
is empty if and only if every CRITICAL question is answered. -/
theorem c7_missing_critical (a : DiscoveryAgent) :
    get_critical_gaps a
      = (DISCOVERY_QUESTIONS.map Prod.snd).filter
          (fun q => decide (q.priority = InformationPriority.critical)
            && !dmem a.session.answers q.id) ∧
    (get_critical_gaps a = [] ↔
      ∀ q ∈ get_critical_questions, dmem a.session.answers q.id = true) := by
  have hids : ∀ p ∈ DISCOVERY_QUESTIONS, p.1 = p.2.id := by decide
  have h1 : get_critical_gaps a
      = (DISCOVERY_QUESTIONS.map Prod.snd).filter
          (fun q => decide (q.priority = InformationPriority.critical)
            && !dmem a.session.answers q.id) := by
    unfold get_critical_gaps get_missing_information
    exact filter_pair_map DISCOVERY_QUESTIONS
      (fun q => decide (q.priority = InformationPriority.critical))
      (fun k => !dmem a.session.answers k) hids
  refine ⟨h1, ?_⟩
  rw [h1, my_filter_eq_nil]
  constructor
  · intro hall q hq
    unfold get_critical_questions get_questions_by_priority at hq
    have hq' := List.mem_filter.mp hq
    have hcond := hall q hq'.1
    have hcrit : decide (q.priority = InformationPriority.critical) = true := hq'.2
    rw [hcrit, Bool.true_and, Bool.not_eq_false'] at hcond
    exact hcond
  · intro hall q hq
    by_cases hcrit : q.priority = InformationPriority.critical
    · have hmem : q ∈ get_critical_questions := by
        unfold get_critical_questions get_questions_by_priority
        exact List.mem_filter.mpr ⟨hq, by simp [hcrit]⟩
      have hd := hall q hmem
      simp [hd, hcrit]
    · simp [hcrit]

/-- Claim C8: a question id with no registered validator yields an empty
sequence of findings (and, being a total function, the dispatcher never
raises); and validation findings never prevent recording — for every
question and answer, `ask_user_question` writes the user answer into
`Session.answers` regardless of what the validators return. -/
theorem c8_validation_advisory (question_id answer : String) (a : DiscoveryAgent)
    (question : DiscoveryQuestion) (user_answer : String)
    (h : dget QuestionValidator.VALIDATORS question_id = none) :
    QuestionValidator.validate_answer question_id answer = [] ∧
    dget (ask_user_question a question user_answer).1.session.answers question.id
      = some (mk_user_answer question user_answer) := by
  constructor
  · unfold QuestionValidator.validate_answer
    rw [h]
  · show dget (dset a.session.answers question.id (mk_user_answer question user_answer))
      question.id = some (mk_user_answer question user_answer)
    exact dget_dset_self ..

theorem c8_validation_witness :
    QuestionValidator.validate_answer "biz_002" "6 months" = [] ∧
    dget (ask_user_question agent_with_cache biz_002 "6 months").1.session.answers "biz_002"
      = some (mk_user_answer biz_002 "6 months") :=
  c8_validation_advisory "biz_002" "6 months" agent_with_cache biz_002 "6 months" rfl

theorem fold_dset_mem (es : List ExportedAnswer) :
    ∀ (acc : List (String × DiscoveryAnswer)) (e : ExportedAnswer),
      e ∈ es ∨ dmem acc e.question_id = true →
      dmem (es.foldl (fun d e => dset d e.question_id (imported_answer e)) acc)
        e.question_id = true := by
  induction es with
  | nil =>
    intro acc e h
    rcases h with h | h
    · simp at h
    · exact h
  | cons e0 rest ih =>
    intro acc e h
    simp only [List.foldl_cons]
    rcases h with h | h
    · rcases List.mem_cons.mp h with h | h
      · subst h
        exact ih _ e (Or.inr (dmem_dset_self ..))
      · exact ih _ e (Or.inl h)
    · by_cases heq : e.question_id = e0.question_id
      · exact ih _ e (Or.inr (by rw [heq]; exact dmem_dset_self ..))
      · exact ih _ e (Or.inr (by rw [dmem_dset_ne _ _ _ _ heq]; exact h))

/-- Claim C9 (amended): on import, a snapshot answer whose `question_id`
does not resolve to a catalog question is NOT dropped (and no warning is
logged): every snapshot entry — unknown ids included — ends up as a key of
the imported `Session.answers`, and the import does not abort. -/
theorem c9_import_keeps_every_entry (r : ExportResults) (e : ExportedAnswer)
    (h : e ∈ r.answers) :
    dmem (import_discovery_results r).answers e.question_id = true := by
  unfold import_discovery_results DiscoverySession.update_completion
  dsimp only
  exact fold_dset_mem r.answers [] e (Or.inl h)

theorem c9_import_witness :
    dmem (import_discovery_results snapshot_with_unknown_id).answers "zzz_999" = true :=
  c9_import_keeps_every_entry snapshot_with_unknown_id unknown_exported_answer (by decide)

/-- Claim C9, counterexample to the claim as stated: importing a snapshot
whose only answer references `zzz_999`, an id absent from the catalog,
leaves that answer inside `Session.answers` (with its text intact) instead
of dropping it. -/
theorem c9_unknown_id_enters_session :
    dget (import_discovery_results snapshot_with_unknown_id).answers "zzz_999"
      = some (imported_answer unknown_exported_answer) ∧
    dmem DISCOVERY_QUESTIONS "zzz_999" = false :=
  ⟨by decide, by decide⟩

theorem critical_answered_count_isSome_iff (l : List (String × DiscoveryAnswer)) :
    (critical_answered_count l).isSome = true
      ↔ ∀ p ∈ l, dmem DISCOVERY_QUESTIONS p.1 = true := by
  induction l with
  | nil => simp [critical_answered_count]
  | cons p rest ih =>
    cases hv : dget DISCOVERY_QUESTIONS p.1 with
    | none =>
      have hm : dmem DISCOVERY_QUESTIONS p.1 = false := (dmem_eq_false_iff ..).mpr hv
      simp [critical_answered_count, hv, hm]
    | some q =>
      have hm : dmem DISCOVERY_QUESTIONS p.1 = true := (dmem_eq_true_iff ..).mpr ⟨q, hv⟩
      cases hr : critical_answered_count rest with
      | none =>
        rw [hr] at ih
        simp only [Option.isSome_none, Bool.false_eq_true, false_iff] at ih
        push_neg at ih
        obtain ⟨p', hp', hfalse⟩ := ih
        simp [critical_answered_count, hv, hr, hm]
        exact ⟨p'.1, ⟨p'.2, hp'⟩, by simpa using hfalse⟩
      | some n =>
        rw [hr] at ih
        simp only [Option.isSome_some, true_iff] at ih
        simp [critical_answered_count, hv, hr, hm]
        exact fun x y hxy => ih (x, y) hxy

theorem export_answer_list_isSome_iff (l : List (String × DiscoveryAnswer)) :
    (export_answer_list l).isSome = true
      ↔ ∀ p ∈ l, dmem DISCOVERY_QUESTIONS p.1 = true := by
  induction l with
  | nil => simp [export_answer_list]
  | cons p rest ih =>
    cases hv : dget DISCOVERY_QUESTIONS p.1 with
    | none =>
      have hm : dmem DISCOVERY_QUESTIONS p.1 = false := (dmem_eq_false_iff ..).mpr hv
      simp [export_answer_list, export_entry, hv, hm]
    | some q =>
      have hm : dmem DISCOVERY_QUESTIONS p.1 = true := (dmem_eq_true_iff ..).mpr ⟨q, hv⟩
      cases hr : export_answer_list rest with
      | none =>
        rw [hr] at ih
        simp only [Option.isSome_none, Bool.false_eq_true, false_iff] at ih
        push_neg at ih
        obtain ⟨p', hp', hfalse⟩ := ih
        simp [export_answer_list, export_entry, hv, hr, hm]
        exact ⟨p'.1, ⟨p'.2, hp'⟩, by simpa using hfalse⟩
      | some es =>
        rw [hr] at ih
        simp only [Option.isSome_some, true_iff] at ih
        simp [export_answer_list, export_entry, hv, hr, hm]
        exact fun x y hxy => ih (x, y) hxy

theorem get_discovery_summary_isSome (a : DiscoveryAgent) :
    (get_discovery_summary a).isSome
      = (critical_answered_count a.session.answers).isSome := by
  unfold get_discovery_summary
  cases critical_answered_count a.session.answers <;> rfl

theorem export_results_isSome_iff (a : DiscoveryAgent) :
    (export_discovery_results a).isSome = true
      ↔ ((get_discovery_summary a).isSome = true
          ∧ (export_answer_list a.session.answers).isSome = true) := by
  unfold export_discovery_results
  cases get_discovery_summary a <;> cases export_answer_list a.session.answers <;> simp

theorem answered_subset_catalog_iff (a : DiscoveryAgent) :
    (∀ p ∈ a.session.answers, dmem DISCOVERY_QUESTIONS p.1 = true)
      ↔ ¬ ∃ qid, dmem a.session.answers qid = true
          ∧ dmem DISCOVERY_QUESTIONS qid = false := by
  constructor
  · rintro hall ⟨qid, hq, hfalse⟩
    obtain ⟨v, hv⟩ := (dmem_eq_true_iff ..).mp hq
    have hmem := hall (qid, v) (dget_some_mem _ _ _ hv)
    rw [hmem] at hfalse
    simp at hfalse
  · intro hnex p hp
    cases hb : dmem DISCOVERY_QUESTIONS p.1 with
    | true => rfl
    | false => exact (hnex ⟨p.1, dmem_of_mem _ _ hp, hb⟩).elim

/-- Claim C10: `export_discovery_results` and `get_discovery_summary` fail
with a `KeyError` (modelled as `none`) exactly when `Session.answers`
contains a question id that is not a key of the catalog — the lookup is
unguarded — so a successful export is equivalent to the precondition that
every answered question id exists in `DISCOVERY_QUESTIONS`. -/
theorem c10_unguarded_catalog_lookup (a : DiscoveryAgent) :
    (export_discovery_results a = none
      ↔ ∃ qid, dmem a.session.answers qid = true
          ∧ dmem DISCOVERY_QUESTIONS qid = false) ∧
    (get_discovery_summary a = none
      ↔ ∃ qid, dmem a.session.answers qid = true
          ∧ dmem DISCOVERY_QUESTIONS qid = false) := by
  have hsum : (get_discovery_summary a).isSome = true
      ↔ ∀ p ∈ a.session.answers, dmem DISCOVERY_QUESTIONS p.1 = true := by
    rw [get_discovery_summary_isSome]
    exact critical_answered_count_isSome_iff a.session.answers
  have hexp : (export_discovery_results a).isSome = true
      ↔ ∀ p ∈ a.session.answers, dmem DISCOVERY_QUESTIONS p.1 = true := by
    rw [export_results_isSome_iff]
    constructor
    · intro h
      exact hsum.mp h.1
    · intro h
      exact ⟨hsum.mpr h, (export_answer_list_isSome_iff a.session.answers).mpr h⟩
  constructor
  · constructor
    · intro hnone
      by_contra hnex
      have hall := (answered_subset_catalog_iff a).mpr hnex
      have hs := hexp.mpr hall
      rw [hnone] at hs
      simp at hs
    · intro hx
      cases he : export_discovery_results a with
      | none => rfl
      | some r =>
        have hs : (export_discovery_results a).isSome = true := by rw [he]; rfl
        exact absurd hx ((answered_subset_catalog_iff a).mp (hexp.mp hs))
  · constructor
    · intro hnone
      by_contra hnex
      have hall := (answered_subset_catalog_iff a).mpr hnex
      have hs := hsum.mpr hall
      rw [hnone] at hs
      simp at hs
    · intro hx
      cases he : get_discovery_summary a with
      | none => rfl
      | some su =>
        have hs : (get_discovery_summary a).isSome = true := by rw [he]; rfl
        exact absurd hx ((answered_subset_catalog_iff a).mp (hsum.mp hs))
